import Mathlib

/-!
Shallow embedding of the agentic-rag repository (src/rag_system.py,
src/meilisearch_client.py, src/openrouter_client.py).

External collaborators (the Meilisearch search gateway, the OpenRouter
completion gateway, the wall clock) are modelled as oracle functions passed
in as arguments.  Python dictionaries returned by the gateways are modelled
as structures; `dict.get` with a missing key is modelled with `Option`
fields.  Python `str.lower` is modelled as the ASCII lowering map (the
repository's vocabulary, category names and stop words are all ASCII).
Wall-clock measurements (`time.time()` differences) are opaque rational
inputs: the code stores them unchanged, except for the hard-coded `0.0`.
-/

namespace AgenticRag

/-- ASCII uppercase → lowercase table, modelling Python `str.lower` on the
ASCII range (all vocabulary in the repository is ASCII). -/
def asciiLowerMap : List (Char × Char) :=
  [('A', 'a'), ('B', 'b'), ('C', 'c'), ('D', 'd'), ('E', 'e'), ('F', 'f'),
   ('G', 'g'), ('H', 'h'), ('I', 'i'), ('J', 'j'), ('K', 'k'), ('L', 'l'),
   ('M', 'm'), ('N', 'n'), ('O', 'o'), ('P', 'p'), ('Q', 'q'), ('R', 'r'),
   ('S', 's'), ('T', 't'), ('U', 'u'), ('V', 'v'), ('W', 'w'), ('X', 'x'),
   ('Y', 'y'), ('Z', 'z')]

/-- Lower a single character: ASCII uppercase letters are mapped to their
lowercase counterpart, every other character is unchanged. -/
def lowerChar (c : Char) : Char :=
  ((asciiLowerMap.find? (fun p => p.1 == c)).map Prod.snd).getD c

/-- Python `s.lower()` (ASCII range). -/
def strToLower (s : String) : String := String.mk (s.data.map lowerChar)

/-- Boolean prefix test on character lists. -/
def isPrefixB : List Char → List Char → Bool
  | [], _ => true
  | _ :: _, [] => false
  | a :: as, b :: bs => a == b && isPrefixB as bs

/-- Boolean infix (contiguous substring) test on character lists. -/
def isInfixB (needle : List Char) : List Char → Bool
  | [] => isPrefixB needle []
  | c :: cs => isPrefixB needle (c :: cs) || isInfixB needle cs

/-- Python `needle in hay` on strings: contiguous substring containment. -/
def strContains (hay needle : String) : Bool := isInfixB needle.data hay.data

/-- Helper for `wsTokens`: accumulates the current (reversed) token. -/
def wsTokensAux (acc : List Char) : List Char → List String
  | [] => if acc.isEmpty then [] else [String.mk acc.reverse]
  | c :: cs =>
      if c.isWhitespace then
        if acc.isEmpty then wsTokensAux [] cs
        else String.mk acc.reverse :: wsTokensAux [] cs
      else wsTokensAux (c :: acc) cs

/-- Python `s.split()`: split on runs of whitespace, no empty tokens. -/
def wsTokens (s : String) : List String := wsTokensAux [] s.data

/-- An indexed order document, as the gateways return it.  Python documents
are dicts; field reads in the repository go through `dict.get`, which yields
`None` for a missing key, hence `Option` fields. -/
structure OrderDoc where
  order_id : Option String
  category : Option String
  sub_category : Option String
  amount : Option Rat
  profit : Option Rat
  content : Option String
deriving DecidableEq

/-- A search response from the Meilisearch gateway (`hits` is accessed
directly; `estimatedTotalHits` and `processingTimeMs` via `dict.get` with
default `0`). -/
structure SearchResult where
  hits : List OrderDoc
  estimatedTotalHits : Option Nat
  processingTimeMs : Option Nat
deriving DecidableEq

/-- One call issued to `MeilisearchClient.search` from `_smart_search`:
the query text, the `limit` argument, and the pass-through filters. -/
structure SearchCall where
  q : String
  limit : Nat
  filters : Option String
deriving DecidableEq

/-- The gateway oracle: what the search engine answers for each call. -/
def SearchGateway : Type := SearchCall → SearchResult

/-- The stop-word set of `AgenticRAGSystem._extract_key_terms`
(rag_system.py line 85), verbatim. -/
def stopWords : List String :=
  ["the", "a", "an", "and", "or", "but", "in", "on", "at", "to", "for",
   "of", "with", "by", "is", "are", "was", "were", "be", "been", "have",
   "has", "had", "do", "does", "did", "will", "would", "could", "should",
   "may", "might", "can", "what", "which", "where", "when", "why", "how",
   "show", "me", "find", "get", "top", "best", "highest", "lowest",
   "average", "total", "orders", "products", "items"]

/-- `AgenticRAGSystem._extract_key_terms` (rag_system.py lines 81-87):
whitespace tokenisation, then keep tokens whose lowercase form is not a
stop word and whose length exceeds 2, lowercased. -/
def extractKeyTerms (query : String) : List String :=
  let terms := wsTokens query
  (terms.filter
    (fun term => !(stopWords.contains (strToLower term)) && decide (2 < term.length))).map
    strToLower

/-- The strategy-2 term list (rag_system.py line 45). -/
def topSearchTerms : List String :=
  ["order", "item", "amount", "profit", "Furniture", "Electronics", "Clothing"]

/-- The category list of strategy 4 (rag_system.py line 60). -/
def categories : List String := ["Electronics", "Furniture", "Clothing"]

/-- The business-term list of strategy 5 (rag_system.py line 68). -/
def businessTerms : List String :=
  ["profit", "amount", "order", "item", "Furniture", "Electronics", "Clothing"]

/-- Strategy 2 of `_smart_search` (lines 42-49): when the lowercased query
contains `"top"` (Python substring test), each term of `topSearchTerms` is
searched with limit `max_results * 2`. -/
def strategy2Calls (query : String) (maxResults : Nat) (filters : Option String) :
    List SearchCall :=
  if strContains (strToLower query) "top" then
    topSearchTerms.map (fun t => SearchCall.mk t (maxResults * 2) filters)
  else []

/-- Strategy 3 of `_smart_search` (lines 51-57): each extracted key term of
length above 2 is searched with `max_results`. -/
def strategy3Calls (query : String) (maxResults : Nat) (filters : Option String) :
    List SearchCall :=
  ((extractKeyTerms query).filter (fun t => decide (2 < t.length))).map
    (fun t => SearchCall.mk t maxResults filters)

/-- Strategy 4 of `_smart_search` (lines 59-65): each category whose
lowercase form occurs in the lowercased query is searched. -/
def strategy4Calls (query : String) (maxResults : Nat) (filters : Option String) :
    List SearchCall :=
  (categories.filter (fun c => strContains (strToLower query) (strToLower c))).map
    (fun c => SearchCall.mk c maxResults filters)

/-- Strategy 5 of `_smart_search` (lines 67-73): each business term whose
lowercase form occurs in the lowercased query is searched. -/
def strategy5Calls (query : String) (maxResults : Nat) (filters : Option String) :
    List SearchCall :=
  (businessTerms.filter (fun t => strContains (strToLower query) (strToLower t))).map
    (fun t => SearchCall.mk t maxResults filters)

/-- The ordered list of candidate search calls of strategies 1-5 of
`_smart_search`; the code issues them in this order and returns at the
first non-empty hit set. -/
def candidateCalls (query : String) (maxResults : Nat) (filters : Option String) :
    List SearchCall :=
  SearchCall.mk query maxResults filters ::
    (strategy2Calls query maxResults filters ++ strategy3Calls query maxResults filters ++
      strategy4Calls query maxResults filters ++ strategy5Calls query maxResults filters)

/-- Issue the candidate calls in order, stopping at the first whose hit set
is non-empty.  Returns the chosen result (if any) and the trace of calls
actually issued, in order. -/
def tryCalls (gw : SearchGateway) : List SearchCall → Option SearchResult × List SearchCall
  | [] => (none, [])
  | c :: cs =>
      let r := gw c
      if r.hits.isEmpty then
        ((tryCalls gw cs).1, c :: (tryCalls gw cs).2)
      else (some r, [c])

/-- `AgenticRAGSystem._smart_search` (rag_system.py lines 33-79), with the
trace of gateway calls made explicit.  When every strategy comes back
empty, the code issues the match-all query `"*"` with `max_results` and
`filters` and returns its result. -/
def smartSearch (gw : SearchGateway) (query : String) (maxResults : Nat)
    (filters : Option String) : SearchResult × List SearchCall :=
  match tryCalls gw (candidateCalls query maxResults filters) with
  | (some r, trace) => (r, trace)
  | (none, trace) =>
      (gw (SearchCall.mk "*" maxResults filters),
       trace ++ [SearchCall.mk "*" maxResults filters])

/-- The optional-parameter dict `MeilisearchClient.search` builds before
calling the index (meilisearch_client.py lines 151-157). -/
structure MeiliOpts where
  limit : Option Nat
  filter : Option String
deriving DecidableEq

/-- Python truthiness of an optional int (`None` and `0` are falsy). -/
def pyTruthyNat : Option Nat → Bool
  | none => false
  | some n => n != 0

/-- Python truthiness of an optional string (`None` and `""` are falsy). -/
def pyTruthyStr : Option String → Bool
  | none => false
  | some s => s != ""

/-- `MeilisearchClient.search` (meilisearch_client.py lines 145-164): the
`limit` option is set only when `limit` is truthy, the `filter` option only
when `filters` is truthy; `idx` is the index-search oracle. -/
def meiliSearch (idx : String → MeiliOpts → SearchResult) (query : String)
    (limit : Option Nat) (filters : Option String) : SearchResult :=
  let opts : MeiliOpts :=
    MeiliOpts.mk (if pyTruthyNat limit then limit else none)
      (if pyTruthyStr filters then filters else none)
  idx query opts

/-- One chat message sent to the completion gateway. -/
structure ChatMessage where
  role : String
  content : String
deriving DecidableEq

/-- `OpenRouterClient.create_rag_prompt` (openrouter_client.py lines
71-99): a numbered listing of the documents' `content` fields under a
fixed system instruction and a user turn ending in the literal query. -/
def createRagPrompt (query : String) (context : List OrderDoc) : List ChatMessage :=
  let contextText :=
    String.join ((context.enumFrom 1).map
      (fun p => toString p.1 ++ ". " ++ p.2.content.getD "" ++ "\n"))
  let systemPrompt :=
    "You are an e-commerce data analyst. Answer questions concisely based on the provided order data. Be direct and factual."
  let userPrompt :=
    "Context Data:\n" ++ contextText ++ "\n\nUser Question: " ++ query ++
      "\n\nPlease provide a helpful answer based on the context data above."
  [ChatMessage.mk "system" systemPrompt, ChatMessage.mk "user" userPrompt]

/-- One entry of the `sources` list assembled by `AgenticRAGSystem.query`
(rag_system.py lines 174-183). -/
structure SourceEntry where
  order_id : Option String
  category : Option String
  sub_category : Option String
  amount : Option Rat
  profit : Option Rat
  content : Option String
deriving DecidableEq

/-- The per-document projection performed by the `sources` loop. -/
def docToSource (d : OrderDoc) : SourceEntry :=
  SourceEntry.mk d.order_id d.category d.sub_category d.amount d.profit d.content

/-- The `search_stats` sub-dict of a query response. -/
structure SearchStats where
  total_hits : Nat
  processing_time_ms : Nat
deriving DecidableEq

/-- The response envelope assembled by `AgenticRAGSystem.query`.  Time
fields are the stored wall-clock measurements (opaque rationals here). -/
structure QueryResponse where
  query : String
  answer : String
  context : List OrderDoc
  search_time : Rat
  llm_time : Rat
  total_time : Rat
  sources : List SourceEntry
  search_stats : SearchStats
deriving DecidableEq

/-- The fixed placeholder answer of the empty-result branch
(rag_system.py line 142). -/
def noDataAnswer : String :=
  "I couldn\x27t find any relevant data to answer your question. Please try rephrasing your query."

/-- Python `max_results or Config.MAX_SEARCH_RESULTS` (rag_system.py line
134): `None` and `0` both fall back to the configured default. -/
def pyOrDefault (maxResults : Option Nat) (cfgDefault : Nat) : Nat :=
  match maxResults with
  | none => cfgDefault
  | some n => if n = 0 then cfgDefault else n

/-- `AgenticRAGSystem.query` (rag_system.py lines 123-201).  `gw` is the
search gateway, `gen` the completion gateway (messages and model to answer
text), `cfgMaxResults` the value of `Config.MAX_SEARCH_RESULTS` (the config
module is outside the repository), and the four rationals the wall-clock
measurements taken on this run.  The second component counts completion
gateway invocations (0 or 1). -/
def ragQuery (gw : SearchGateway) (gen : List ChatMessage → Option String → String)
    (cfgMaxResults : Nat) (userQuery : String) (maxResults : Option Nat)
    (filters : Option String) (model : Option String)
    (searchTime llmTime totalTimeEmpty totalTimeFull : Rat) :
    QueryResponse × Nat :=
  let sr := (smartSearch gw userQuery (pyOrDefault maxResults cfgMaxResults) filters).1
  if sr.hits.isEmpty then
    (QueryResponse.mk userQuery noDataAnswer [] searchTime 0 totalTimeEmpty []
      (SearchStats.mk 0 0), 0)
  else
    let messages := createRagPrompt userQuery sr.hits
    let answer := gen messages model
    (QueryResponse.mk userQuery answer sr.hits searchTime llmTime totalTimeFull
      (sr.hits.map docToSource)
      (SearchStats.mk (sr.estimatedTotalHits.getD 0) (sr.processingTimeMs.getD 0)), 1)

/-- The externally visible effects `setup_index` can perform, in order. -/
inductive SetupAction where
  | healthCheck
  | getOrCreateIndex
  | configureSettings
  | getStats
  | processData
  | addDocuments
deriving DecidableEq

/-- The environment `setup_index` runs against: the health-check answer and
the `numberOfDocuments` value its stats call reports (after the `dict.get`
default of `0`). -/
structure SetupEnv where
  healthy : Bool
  numberOfDocuments : Nat
deriving DecidableEq

/-- `AgenticRAGSystem.setup_index` (rag_system.py lines 89-121) on its
non-raising paths, with the trace of performed actions: a failed health
check returns `false` at once; an index already holding documents returns
`true` without the ingestion steps; otherwise data is loaded and added. -/
def setupIndex (env : SetupEnv) : Bool × List SetupAction :=
  if !env.healthy then (false, [SetupAction.healthCheck])
  else if 0 < env.numberOfDocuments then
    (true, [SetupAction.healthCheck, SetupAction.getOrCreateIndex,
            SetupAction.configureSettings, SetupAction.getStats])
  else
    (true, [SetupAction.healthCheck, SetupAction.getOrCreateIndex,
            SetupAction.configureSettings, SetupAction.getStats,
            SetupAction.processData, SetupAction.addDocuments])

/-! Concrete oracles used by witnesses and counterexamples. -/

/-- A sample indexed document. -/
def sampleDoc : OrderDoc :=
  OrderDoc.mk (some "O-1") (some "Furniture") (some "Chairs") (some 120) (some 30)
    (some "Order O-1 is a Furniture order")

/-- A gateway that answers every call with one hit. -/
def gwAllHits : SearchGateway := fun _ => SearchResult.mk [sampleDoc] (some 1) (some 2)

/-- A gateway that answers every call with zero hits. -/
def gwEmpty : SearchGateway := fun _ => SearchResult.mk [] none none

/-- A completion gateway returning a fixed answer. -/
def genFixed : List ChatMessage → Option String → String := fun _ _ => "generated answer"

/-! Helper lemmas about the call chain. -/

theorem hits_isEmpty_false {r : SearchResult} (h : r.hits ≠ []) : r.hits.isEmpty = false := by
  simp [List.isEmpty_iff, h]

theorem tryCalls_cons_hit (gw : SearchGateway) (c : SearchCall) (cs : List SearchCall)
    (h : (gw c).hits ≠ []) : tryCalls gw (c :: cs) = (some (gw c), [c]) := by
  simp [tryCalls, hits_isEmpty_false h]

theorem tryCalls_cons_empty (gw : SearchGateway) (c : SearchCall) (cs : List SearchCall)
    (h : (gw c).hits = []) :
    tryCalls gw (c :: cs) = ((tryCalls gw cs).1, c :: (tryCalls gw cs).2) := by
  simp [tryCalls, h]

theorem tryCalls_all_empty (gw : SearchGateway) :
    ∀ cs : List SearchCall, (∀ c ∈ cs, (gw c).hits = []) → tryCalls gw cs = (none, cs)
  | [], _ => rfl
  | c :: cs, h => by
      rw [tryCalls_cons_empty gw c cs (h c (by simp)),
        tryCalls_all_empty gw cs (fun d hd => h d (by simp [hd]))]

theorem tryCalls_trace_length_le (gw : SearchGateway) :
    ∀ cs : List SearchCall, (tryCalls gw cs).2.length ≤ cs.length
  | [] => Nat.le_refl 0
  | c :: cs => by
      by_cases h : (gw c).hits = []
      · rw [tryCalls_cons_empty gw c cs h]
        exact Nat.succ_le_succ (tryCalls_trace_length_le gw cs)
      · rw [tryCalls_cons_hit gw c cs h]
        exact Nat.succ_le_succ (Nat.zero_le _)

/-- C1: if the direct (strategy 1) search already has a hit, `_smart_search`
returns exactly that first search result and the trace of gateway calls is
that single direct call — strategies 2 through 6 issue zero calls. -/
theorem smartSearch_direct_hit_short_circuits (gw : SearchGateway) (query : String)
    (maxResults : Nat) (filters : Option String)
    (h : (gw (SearchCall.mk query maxResults filters)).hits ≠ []) :
    smartSearch gw query maxResults filters =
      (gw (SearchCall.mk query maxResults filters),
       [SearchCall.mk query maxResults filters]) := by
  unfold smartSearch candidateCalls
  rw [tryCalls_cons_hit gw _ _ h]

/-- Witness for C1: a gateway whose direct search for `"Furniture"` hits. -/
theorem smartSearch_direct_hit_short_circuits_witness :
    smartSearch gwAllHits "Furniture" 5 none =
      (gwAllHits (SearchCall.mk "Furniture" 5 none), [SearchCall.mk "Furniture" 5 none]) :=
  smartSearch_direct_hit_short_circuits gwAllHits "Furniture" 5 none (by decide)

/-- C2: when every strategy in the fallback chain yields zero hits, the
final call `_smart_search` issues is exactly the match-all query `"*"` with
the given `max_results` and `filters`, and its return value is whatever the
gateway answers for that call. -/
theorem smartSearch_exhaustion_matchall (gw : SearchGateway) (query : String)
    (maxResults : Nat) (filters : Option String)
    (h : ∀ c ∈ candidateCalls query maxResults filters, (gw c).hits = []) :
    smartSearch gw query maxResults filters =
      (gw (SearchCall.mk "*" maxResults filters),
       candidateCalls query maxResults filters ++ [SearchCall.mk "*" maxResults filters]) := by
  unfold smartSearch
  rw [tryCalls_all_empty gw _ h]

/-- Witness for C2: the everywhere-empty gateway on the query
`"hello world"`. -/
theorem smartSearch_exhaustion_matchall_witness :
    smartSearch gwEmpty "hello world" 3 none =
      (gwEmpty (SearchCall.mk "*" 3 none),
       candidateCalls "hello world" 3 none ++ [SearchCall.mk "*" 3 none]) :=
  smartSearch_exhaustion_matchall gwEmpty "hello world" 3 none (fun _ _ => rfl)

/-- C4: when the search phase comes back with zero hits, `query` returns
the fixed placeholder answer with empty context and sources, `llm_time`
equal to `0.0`, zeroed search stats, and the completion gateway is invoked
zero times on that run. -/
theorem ragQuery_empty_results_short_circuit (gw : SearchGateway)
    (gen : List ChatMessage → Option String → String) (cfgMaxResults : Nat)
    (userQuery : String) (maxResults : Option Nat) (filters model : Option String)
    (searchTime llmTime totalTimeEmpty totalTimeFull : Rat)
    (h : (smartSearch gw userQuery (pyOrDefault maxResults cfgMaxResults) filters).1.hits = []) :
    ragQuery gw gen cfgMaxResults userQuery maxResults filters model searchTime llmTime
        totalTimeEmpty totalTimeFull =
      (QueryResponse.mk userQuery noDataAnswer [] searchTime 0 totalTimeEmpty []
        (SearchStats.mk 0 0), 0) := by
  simp [ragQuery, h]

/-- Witness for C4: the everywhere-empty gateway on `"no such data"`. -/
theorem ragQuery_empty_results_short_circuit_witness :
    ragQuery gwEmpty genFixed 5 "no such data" none none none 0 0 0 0 =
      (QueryResponse.mk "no such data" noDataAnswer [] 0 0 0 [] (SearchStats.mk 0 0), 0) :=
  ragQuery_empty_results_short_circuit gwEmpty genFixed 5 "no such data" none none none
    0 0 0 0 (by decide)

/-- C5: in every response of `query`, `sources` has the same length as
`context`, each `sources` entry is exactly the six-field projection of the
corresponding `context` document, and `context` is the hit list of the
single search result chosen by the fallback chain. -/
theorem ragQuery_sources_align_context (gw : SearchGateway)
    (gen : List ChatMessage → Option String → String) (cfgMaxResults : Nat)
    (userQuery : String) (maxResults : Option Nat) (filters model : Option String)
    (searchTime llmTime totalTimeEmpty totalTimeFull : Rat) :
    (ragQuery gw gen cfgMaxResults userQuery maxResults filters model searchTime llmTime
        totalTimeEmpty totalTimeFull).1.sources.length =
      (ragQuery gw gen cfgMaxResults userQuery maxResults filters model searchTime llmTime
        totalTimeEmpty totalTimeFull).1.context.length ∧
    (ragQuery gw gen cfgMaxResults userQuery maxResults filters model searchTime llmTime
        totalTimeEmpty totalTimeFull).1.sources =
      (ragQuery gw gen cfgMaxResults userQuery maxResults filters model searchTime llmTime
        totalTimeEmpty totalTimeFull).1.context.map docToSource ∧
    (ragQuery gw gen cfgMaxResults userQuery maxResults filters model searchTime llmTime
        totalTimeEmpty totalTimeFull).1.context =
      (smartSearch gw userQuery (pyOrDefault maxResults cfgMaxResults) filters).1.hits := by
  rcases hh : (smartSearch gw userQuery (pyOrDefault maxResults cfgMaxResults) filters).1.hits
    with _ | ⟨d, ds⟩
  · simp [ragQuery, hh]
  · simp [ragQuery, hh]

/-- C8: a failed gateway health check makes `setup_index` return `false`
without raising and without issuing any index-creation, settings, stats or
ingestion call — the action trace is the health check alone. -/
theorem setupIndex_unhealthy_early_return (env : SetupEnv) (h : env.healthy = false) :
    setupIndex env = (false, [SetupAction.healthCheck]) := by
  simp [setupIndex, h]

/-- Witness for C8: an unhealthy environment. -/
theorem setupIndex_unhealthy_early_return_witness :
    setupIndex (SetupEnv.mk false 7) = (false, [SetupAction.healthCheck]) :=
  setupIndex_unhealthy_early_return (SetupEnv.mk false 7) rfl

/-- C9: with a healthy gateway and an index already reporting at least one
document, `setup_index` returns `true` and performs no data loading and no
`add_documents` call. -/
theorem setupIndex_populated_skips_ingestion (env : SetupEnv) (h1 : env.healthy = true)
    (h2 : 1 ≤ env.numberOfDocuments) :
    setupIndex env =
      (true, [SetupAction.healthCheck, SetupAction.getOrCreateIndex,
              SetupAction.configureSettings, SetupAction.getStats]) ∧
    SetupAction.processData ∉ (setupIndex env).2 ∧
    SetupAction.addDocuments ∉ (setupIndex env).2 := by
  have h2p : 0 < env.numberOfDocuments := h2
  have he : setupIndex env =
      (true, [SetupAction.healthCheck, SetupAction.getOrCreateIndex,
              SetupAction.configureSettings, SetupAction.getStats]) := by
    simp [setupIndex, h1, h2p]
  refine ⟨he, ?_, ?_⟩ <;> rw [he] <;> decide

/-- Witness for C9: a healthy environment with five indexed documents. -/
theorem setupIndex_populated_skips_ingestion_witness :
    setupIndex (SetupEnv.mk true 5) =
      (true, [SetupAction.healthCheck, SetupAction.getOrCreateIndex,
              SetupAction.configureSettings, SetupAction.getStats]) ∧
    SetupAction.processData ∉ (setupIndex (SetupEnv.mk true 5)).2 ∧
    SetupAction.addDocuments ∉ (setupIndex (SetupEnv.mk true 5)).2 :=
  setupIndex_populated_skips_ingestion (SetupEnv.mk true 5) rfl (by decide)

/-- C10: a result limit of `0` is treated as unset at both boundaries:
`query` with `max_results = 0` behaves identically to `max_results = None`
(the `or`-coercion falls back to the configured default), and
`MeilisearchClient.search` with `limit = 0` omits the `limit` option from
the gateway call instead of requesting zero hits. -/
theorem zero_max_results_treated_as_unset :
    (∀ (gw : SearchGateway) (gen : List ChatMessage → Option String → String)
        (cfgMaxResults : Nat) (userQuery : String) (filters model : Option String)
        (searchTime llmTime totalTimeEmpty totalTimeFull : Rat),
      ragQuery gw gen cfgMaxResults userQuery (some 0) filters model searchTime llmTime
          totalTimeEmpty totalTimeFull =
        ragQuery gw gen cfgMaxResults userQuery none filters model searchTime llmTime
          totalTimeEmpty totalTimeFull) ∧
    (∀ (idx : String → MeiliOpts → SearchResult) (query : String) (filters : Option String),
      meiliSearch idx query (some 0) filters = meiliSearch idx query none filters) ∧
    (∀ (idx : String → MeiliOpts → SearchResult) (query : String) (filters : Option String),
      meiliSearch idx query (some 0) filters =
        idx query (MeiliOpts.mk none (if pyTruthyStr filters then filters else none))) :=
  ⟨fun _ _ _ _ _ _ _ _ _ _ => rfl, fun _ _ _ => rfl, fun _ _ _ => rfl⟩

/-! Lowercasing lemmas. -/

theorem lowerChar_idem (c : Char) : lowerChar (lowerChar c) = lowerChar c := by
  unfold lowerChar
  cases h : asciiLowerMap.find? (fun p => p.1 == c) with
  | none => simp [h]
  | some p =>
      have hmem : p ∈ asciiLowerMap := List.mem_of_find?_eq_some h
      have hnone : ∀ q ∈ asciiLowerMap,
          asciiLowerMap.find? (fun r => r.1 == q.2) = none := by decide
      simp [h, hnone p hmem]

theorem strToLower_idem (s : String) : strToLower (strToLower s) = strToLower s := by
  have hfun : lowerChar ∘ lowerChar = lowerChar := funext lowerChar_idem
  show String.mk ((s.data.map lowerChar).map lowerChar) = String.mk (s.data.map lowerChar)
  rw [List.map_map, hfun]

theorem strToLower_length (s : String) : (strToLower s).length = s.length := by
  show (s.data.map lowerChar).length = s.data.length
  rw [List.length_map]

/-- C7: `_extract_key_terms` is a pure, hence deterministic, function of
the query in this embedding; every output term is outside the fixed
stop-word set, has length above 2, is lowercase (a fixed point of
lowering), and arises by lowercasing a whitespace token of the query. -/
theorem extractKeyTerms_properties (q t : String) (ht : t ∈ extractKeyTerms q) :
    stopWords.contains t = false ∧ 2 < t.length ∧ strToLower t = t ∧
      t ∈ (wsTokens q).map strToLower := by
  simp only [extractKeyTerms, List.mem_map, List.mem_filter] at ht
  obtain ⟨t0, ⟨ht0, hp⟩, rfl⟩ := ht
  rw [Bool.and_eq_true] at hp
  obtain ⟨hp1, hp2⟩ := hp
  rw [Bool.not_eq_true'] at hp1
  refine ⟨hp1, ?_, strToLower_idem t0, List.mem_map_of_mem _ ht0⟩
  rw [strToLower_length]
  exact of_decide_eq_true hp2

/-- Witness for C7: the term `"profit"` extracted from a mixed-case query
full of stop words. -/
theorem extractKeyTerms_properties_witness :
    stopWords.contains "profit" = false ∧ 2 < "profit".length ∧
      strToLower "profit" = "profit" ∧
      "profit" ∈ (wsTokens "Show me the Highest profit Orders").map strToLower :=
  extractKeyTerms_properties "Show me the Highest profit Orders" "profit" (by decide)

/-! Locating the first hit inside an issued prefix of the call chain. -/

theorem getD_map_of_lt {α β : Type} (g : α → β) (dα : α) (dβ : β) :
    ∀ (l : List α) (i : Nat), i < l.length → (l.map g).getD i dβ = g (l.getD i dα)
  | _ :: _, 0, _ => rfl
  | _ :: l, i + 1, h => getD_map_of_lt g dα dβ l i (Nat.lt_of_succ_lt_succ h)
  | [], _, h => absurd h (by simp)

theorem tryCalls_firstHit (gw : SearchGateway) :
    ∀ (cs rest : List SearchCall) (j : Nat),
      j < cs.length →
      (∀ i, i < j → (gw (cs.getD i (SearchCall.mk "" 0 none))).hits = []) →
      (gw (cs.getD j (SearchCall.mk "" 0 none))).hits ≠ [] →
      tryCalls gw (cs ++ rest) =
        (some (gw (cs.getD j (SearchCall.mk "" 0 none))), cs.take (j + 1))
  | [], _, j, hj, _, _ => absurd hj (by simp)
  | c :: cs, rest, 0, _, _, hhit => by
      rw [List.cons_append, tryCalls_cons_hit gw c (cs ++ rest) hhit]
      rfl
  | c :: cs, rest, j + 1, hj, hbefore, hhit => by
      have hc : (gw c).hits = [] := hbefore 0 (Nat.succ_pos j)
      rw [List.cons_append, tryCalls_cons_empty gw c (cs ++ rest) hc,
        tryCalls_firstHit gw cs rest j (Nat.lt_of_succ_lt_succ hj)
          (fun i hi => hbefore (i + 1) (Nat.succ_lt_succ hi)) hhit]
      rfl

/-- C3 counterexample: the query `"laptop"` has no whitespace-delimited
token `"top"`, yet strategy 2 runs — the strategy-2 call for `"order"`
with doubled limit is issued by `_smart_search`. -/
theorem strategy2_token_trigger_cex :
    (wsTokens (strToLower "laptop")).contains "top" = false ∧
    strategy2Calls "laptop" 1 none ≠ [] ∧
    SearchCall.mk "order" 2 none ∈ (smartSearch gwEmpty "laptop" 1 none).2 := by
  decide

/-- C3 (amended): strategy 2 runs exactly when the lowercased query
contains `"top"` as a substring (so `"laptop"` triggers it too); when it
runs and the direct search was empty, it searches the fixed ordered list
`order, item, amount, profit, Furniture, Electronics, Clothing`, each with
limit `2 × max_results` and the same filters, stopping at the first term
whose result is non-empty. -/
theorem strategy2_substring_trigger :
    (∀ (query : String) (maxResults : Nat) (filters : Option String),
      strategy2Calls query maxResults filters =
        if strContains (strToLower query) "top" then
          topSearchTerms.map (fun t => SearchCall.mk t (maxResults * 2) filters)
        else []) ∧
    (∀ (gw : SearchGateway) (query : String) (maxResults : Nat) (filters : Option String)
        (j : Nat),
      j < topSearchTerms.length →
      (gw (SearchCall.mk query maxResults filters)).hits = [] →
      strContains (strToLower query) "top" = true →
      (∀ i, i < j →
        (gw (SearchCall.mk (topSearchTerms.getD i "") (maxResults * 2) filters)).hits = []) →
      (gw (SearchCall.mk (topSearchTerms.getD j "") (maxResults * 2) filters)).hits ≠ [] →
      smartSearch gw query maxResults filters =
        (gw (SearchCall.mk (topSearchTerms.getD j "") (maxResults * 2) filters),
         SearchCall.mk query maxResults filters ::
           (topSearchTerms.take (j + 1)).map
             (fun t => SearchCall.mk t (maxResults * 2) filters))) := by
  constructor
  · intro query maxResults filters
    rfl
  · intro gw query maxResults filters j hj hdir htop hbefore hhit
    have hs2 : strategy2Calls query maxResults filters =
        topSearchTerms.map (fun t => SearchCall.mk t (maxResults * 2) filters) := by
      simp [strategy2Calls, htop]
    have hlen : j < (topSearchTerms.map
        (fun t => SearchCall.mk t (maxResults * 2) filters)).length := by
      rw [List.length_map]; exact hj
    have hb : ∀ i, i < j →
        (gw ((topSearchTerms.map (fun t => SearchCall.mk t (maxResults * 2) filters)).getD i
          (SearchCall.mk "" 0 none))).hits = [] := by
      intro i hi
      rw [getD_map_of_lt _ "" _ _ i (Nat.lt_trans hi hj)]
      exact hbefore i hi
    have hh : (gw ((topSearchTerms.map
        (fun t => SearchCall.mk t (maxResults * 2) filters)).getD j
          (SearchCall.mk "" 0 none))).hits ≠ [] := by
      rw [getD_map_of_lt _ "" _ _ j hj]
      exact hhit
    have key := tryCalls_firstHit gw
      (topSearchTerms.map (fun t => SearchCall.mk t (maxResults * 2) filters))
      (strategy3Calls query maxResults filters ++
        (strategy4Calls query maxResults filters ++ strategy5Calls query maxResults filters))
      j hlen hb hh
    rw [getD_map_of_lt _ "" _ _ j hj] at key
    unfold smartSearch candidateCalls
    rw [List.append_assoc, List.append_assoc, hs2,
      tryCalls_cons_empty gw _ _ hdir, key, List.map_take]

/-- A gateway that hits only on the query `"order"`. -/
def gwTopOrder : SearchGateway := fun c =>
  if c.q = "order" then SearchResult.mk [sampleDoc] (some 1) (some 1)
  else SearchResult.mk [] none none

/-- Witness for the amended C3: `"top stuff"` against a gateway whose
direct search is empty and whose first strategy-2 term `"order"` hits. -/
theorem strategy2_substring_trigger_witness :
    smartSearch gwTopOrder "top stuff" 1 none =
      (gwTopOrder (SearchCall.mk "order" 2 none),
       SearchCall.mk "top stuff" 1 none ::
         (topSearchTerms.take 1).map (fun t => SearchCall.mk t 2 none)) :=
  strategy2_substring_trigger.2 gwTopOrder "top stuff" 1 none 0 (by decide) (by decide)
    (by decide) (fun i hi => absurd hi (Nat.not_lt_zero i)) (by decide)

/-- C6 counterexample: on this query every strategy fires in full; the
trace holds 26 gateway calls, while the claimed per-strategy budgets
1 + 7 + |key terms| + 3 + 4 + 1 only add up to 23 (the strategy-5 list has
seven business terms, not four). -/
theorem smartSearch_call_bound_cex :
    (extractKeyTerms "top profit amount order item furniture electronics clothing").length =
      7 ∧
    (smartSearch gwEmpty "top profit amount order item furniture electronics clothing" 1
      none).2.length = 26 ∧
    ¬((smartSearch gwEmpty "top profit amount order item furniture electronics clothing" 1
        none).2.length ≤
      1 + 7 +
        (extractKeyTerms
          "top profit amount order item furniture electronics clothing").length +
        3 + 4 + 1) := by
  decide

/-- C6 (amended): one `_smart_search` run issues at most
1 + 7 + |key terms| + 3 + 7 + 1 sequential gateway calls — the direct call,
up to seven strategy-2 terms, the surviving key terms, up to three
categories, up to seven business terms, and the match-all fallback. -/
theorem smartSearch_call_count_bound (gw : SearchGateway) (query : String)
    (maxResults : Nat) (filters : Option String) :
    (smartSearch gw query maxResults filters).2.length ≤
      1 + 7 + (extractKeyTerms query).length + 3 + 7 + 1 := by
  have h2 : (strategy2Calls query maxResults filters).length ≤ 7 := by
    unfold strategy2Calls
    split
    · rw [List.length_map]
      decide
    · decide
  have h3 : (strategy3Calls query maxResults filters).length ≤
      (extractKeyTerms query).length := by
    unfold strategy3Calls
    rw [List.length_map]
    exact List.length_filter_le _ _
  have h4 : (strategy4Calls query maxResults filters).length ≤ 3 := by
    unfold strategy4Calls
    rw [List.length_map]
    exact List.length_filter_le _ _
  have h5 : (strategy5Calls query maxResults filters).length ≤ 7 := by
    unfold strategy5Calls
    rw [List.length_map]
    exact List.length_filter_le _ _
  have hcand : (candidateCalls query maxResults filters).length ≤
      1 + 7 + (extractKeyTerms query).length + 3 + 7 := by
    simp only [candidateCalls, List.length_cons, List.length_append]
    omega
  have htr := tryCalls_trace_length_le gw (candidateCalls query maxResults filters)
  unfold smartSearch
  rcases h : tryCalls gw (candidateCalls query maxResults filters) with ⟨o, t⟩
  rw [h] at htr
  have htr2 : t.length ≤ (candidateCalls query maxResults filters).length := htr
  cases o with
  | some r =>
      show t.length ≤ _
      omega
  | none =>
      show (t ++ [SearchCall.mk "*" maxResults filters]).length ≤ _
      rw [List.length_append]
      simp only [List.length_cons, List.length_nil]
      omega

end AgenticRag
